import Mathlib

/-!
Verification of the entity-resolution and merge pipeline of the
Ai_for_global_healthcare_access repository (src/src/datacleaning/).

The development is a shallow embedding of the Python source: each Lean
definition mirrors one Python function or data structure, translated
statement by statement.  External services (OpenAI embeddings, the LLM
judgment call) are modelled as oracle parameters bundled in a Services
record; machine floats that are only compared (similarity scores,
reliability scores, latitude/longitude) are modelled as rationals, which is
exact for the comparisons the code performs; surrogate uuid primary keys
that no code path reads back are elided, and the uuid4 supply is modelled
as a counter threaded through the pipeline state.
-/

/-- Python str.isspace characters stripped by str.strip (space, tab,
newline, carriage return, vertical tab, form feed). -/
def isPySpace (c : Char) : Bool :=
  c = ' ' || c = '\t' || c = '\n' || c = '\r' || c = '\x0b' || c = '\x0c'

/-- Python str.strip with no arguments: drop leading and trailing whitespace. -/
def pyStrip (s : String) : String :=
  String.mk (((s.toList.dropWhile isPySpace).reverse.dropWhile isPySpace).reverse)

/-- Python s[:500] on a string. -/
def pySlice500 (s : String) : String :=
  String.mk (s.toList.take 500)

/-- parser._str_or_none: a missing cell (None or pandas NaN) is modelled as
none; a present cell maps blank and the literal "null" to None and strips
everything else. -/
def strOrNoneCell (raw : Option String) : Option String :=
  match raw with
  | none => none
  | some s => if pyStrip s = "" ∨ pyStrip s = "null" then none else some (pyStrip s)

/-- db._str_or_none: None stays None, blank strings become None, everything
else is stripped (the literal "null" is not special in the db variant). -/
def strOrNoneDb (v : Option String) : Option String :=
  match v with
  | none => none
  | some s => if pyStrip s = "" then none else some (pyStrip s)

/-- parser.row_to_scraped_row, organization_type field: the expression
"facility" if _str_or_none(get("organization_type")) != "ngo" else "ngo". -/
def rowOrganizationType (cell : Option String) : String :=
  if strOrNoneCell cell ≠ some "ngo" then "facility" else "ngo"

/-- C10: the Row Normalizer yields organization_type "ngo" exactly when the
raw organization-type cell, stripped of whitespace, is exactly "ngo"; every
other value (missing, blank, "null", unrecognized) yields "facility". -/
theorem c10_organization_type_iff_ngo (cell : Option String) :
    rowOrganizationType cell = "ngo" ↔ ∃ s, cell = some s ∧ pyStrip s = "ngo" := by
  cases cell with
  | none => simp [rowOrganizationType, strOrNoneCell]
  | some s =>
    by_cases h : pyStrip s = "ngo"
    · have hne : ¬ (pyStrip s = "" ∨ pyStrip s = "null") := by
        rw [h]; decide
      simp [rowOrganizationType, strOrNoneCell, hne, h]
    · by_cases hb : pyStrip s = "" ∨ pyStrip s = "null"
      · simp [rowOrganizationType, strOrNoneCell, hb, h]
      · simp [rowOrganizationType, strOrNoneCell, hb, h]

/-- Element of a decoded JSON value as the parser sees it: a JSON string, a
JSON null, or any other value (number, boolean, nested container), carried
with its Python str() rendering, which is all the parser uses. -/
inductive PyVal where
  | str (s : String)
  | null
  | other (rendering : String)
deriving DecidableEq

/-- Shape of a successful json.loads result: a list, or anything that is not
a list (dict, scalar, ...). -/
inductive PyParsed where
  | list (xs : List PyVal)
  | nonList
deriving DecidableEq

/-- Python str(x) for a decoded JSON element (identity on strings). -/
def pyValText : PyVal → Option String
  | .str s => some s
  | .null => none
  | .other r => some r

/-- parser._parse_json_list, list comprehension over a decoded array:
str(x).strip() for x in parsed if x is not None and str(x).strip(). -/
def cleanElems (xs : List PyVal) : List String :=
  xs.filterMap (fun x =>
    match pyValText x with
    | none => none
    | some t => if pyStrip t = "" then none else some (pyStrip t))

/-- Python s.startswith with a single-character bracket argument. -/
def startsWithBracket (s : String) : Bool :=
  match s.toList with
  | '[' :: _ => true
  | _ => false

/-- parser._parse_json_list.  The json.loads library call is an oracle
parameter (none models a JSONDecodeError); a missing cell (None / NaN) is
the none input.  Note the source only attempts JSON decoding when the
stripped cell starts with a bracket; every other non-sentinel value falls
through to the empty list. -/
def parseJsonListCell (loads : String → Option PyParsed) (raw : Option String) : List String :=
  match raw with
  | none => []
  | some r =>
    if r = "" then []
    else if pyStrip r = "null" ∨ pyStrip r = "[]" then []
    else
      let r' := pyStrip r
      if startsWithBracket r' then
        match loads r' with
        | some (.list xs) => cleanElems xs
        | some .nonList => []
        | none => []
      else []

/-- C8 counterexample: the claim says comma-separated strings are parsed
into an ordered list, but _parse_json_list returns the empty list for any
cell that does not start with a bracket, whatever json.loads would do; at
the concrete cell "a,b" the result is [] and never ["a", "b"]. -/
theorem c8_comma_separated_not_parsed :
    ¬ (∀ loads : String → Option PyParsed,
        parseJsonListCell loads (some "a,b") = ["a", "b"]) := by
  intro h
  have h0 := h (fun _ => none)
  revert h0
  decide

/-- C8 amended: the Row Normalizer maps the empty string, the literals
"null" and "[]" and missing cells to the empty list; a cell whose stripped
value starts with a bracket is decoded with json.loads and its non-null,
non-blank elements are kept stripped and in order; every other cell,
including comma-separated strings and any malformed value, degrades to the
empty list rather than aborting the row. -/
theorem c8_parse_json_cell_characterization
    (loads : String → Option PyParsed) (s : String) :
    parseJsonListCell loads none = [] ∧
    parseJsonListCell loads (some "") = [] ∧
    parseJsonListCell loads (some "null") = [] ∧
    parseJsonListCell loads (some "[]") = [] ∧
    (¬ startsWithBracket (pyStrip s) = true → parseJsonListCell loads (some s) = []) ∧
    (∀ xs, s ≠ "" → pyStrip s ≠ "null" → pyStrip s ≠ "[]" →
      startsWithBracket (pyStrip s) = true → loads (pyStrip s) = some (.list xs) →
      parseJsonListCell loads (some s) = cleanElems xs) := by
  refine ⟨?_, ?_, ?_, ?_, ?_, ?_⟩
  · rfl
  · rfl
  · rfl
  · rfl
  · intro hnb
    unfold parseJsonListCell
    by_cases he : s = ""
    · simp [he]
    · by_cases hs : pyStrip s = "null" ∨ pyStrip s = "[]"
      · simp [he, hs]
      · simp [he, hs, hnb]
  · intro xs hne hnull hbrk hstart hload
    unfold parseJsonListCell
    have hs : ¬ (pyStrip s = "null" ∨ pyStrip s = "[]") := by
      rintro (h | h) <;> [exact hnull h; exact hbrk h]
    simp [hne, hs, hstart, hload]

/-- Concrete json.loads oracle used by the C8 witness: decodes exactly the
literal used in the witness. -/
def loadsWitness : String → Option PyParsed :=
  fun t => if t = "[\"a\", \"b\"]" then some (.list [.str "a", .str "b"]) else none

/-- Witness for the C8 theorem at a concrete JSON-array cell. -/
theorem c8_parse_json_cell_characterization_witness :
    parseJsonListCell loadsWitness (some " [\"a\", \"b\"] ") = ["a", "b"] := by
  have h := (c8_parse_json_cell_characterization loadsWitness " [\"a\", \"b\"] ").2.2.2.2.2
    [PyVal.str "a", PyVal.str "b"] (by decide) (by decide) (by decide) (by decide) (by decide)
  rw [h]
  decide

/-- models.ScrapedRow: one parsed CSV row.  Uuid-valued fields
(content_table_id, unique_id) are carried as strings; numeric facts as
integers; multi-valued fields as ordered string lists. -/
structure ScrapedRow where
  source_url : String := ""
  name : String := ""
  pk_unique_id : Option Int := none
  mongo_db : Option String := none
  specialties : List String := []
  procedure : List String := []
  equipment : List String := []
  capability : List String := []
  organization_type : String := "facility"
  content_table_id : Option String := none
  phone_numbers : List String := []
  email : Option String := none
  websites : List String := []
  official_website : Option String := none
  year_established : Option Int := none
  accepts_volunteers : Option Bool := none
  facebook_link : Option String := none
  twitter_link : Option String := none
  linkedin_link : Option String := none
  instagram_link : Option String := none
  logo : Option String := none
  address_line1 : Option String := none
  address_line2 : Option String := none
  address_line3 : Option String := none
  address_city : Option String := none
  address_state_or_region : Option String := none
  address_zip_or_postcode : Option String := none
  address_country : Option String := none
  address_country_code : Option String := none
  countries : List String := []
  mission_statement : Option String := none
  mission_statement_link : Option String := none
  organization_description : Option String := none
  facility_type_id : Option String := none
  operator_type_id : Option String := none
  affiliation_type_ids : List String := []
  description : Option String := none
  area : Option Int := none
  number_doctors : Option Int := none
  capacity : Option Int := none
  unique_id : Option String := none
deriving DecidableEq

/-- models.MergedOrganization: one canonical draft produced by the merge
step.  The organization_group_id (a truncated uuid in the source) and all
generated identifiers are modelled as natural numbers; lat/lon and the
reliability score as rationals. -/
structure MergedOrganization where
  canonical_name : String := ""
  organization_type : String := "facility"
  phone_numbers : List String := []
  official_phone : Option String := none
  email : Option String := none
  websites : List String := []
  official_website : Option String := none
  year_established : Option Int := none
  accepts_volunteers : Option Bool := none
  facebook_link : Option String := none
  twitter_link : Option String := none
  linkedin_link : Option String := none
  instagram_link : Option String := none
  logo : Option String := none
  address_line1 : Option String := none
  address_line2 : Option String := none
  address_line3 : Option String := none
  address_city : Option String := none
  address_state_or_region : Option String := none
  address_zip_or_postcode : Option String := none
  address_country : Option String := none
  address_country_code : Option String := none
  lat : Option ℚ := none
  lon : Option ℚ := none
  organization_group_id : Option Nat := none
  geocode_query : Option String := none
  facility_type_id : Option String := none
  operator_type_id : Option String := none
  description : Option String := none
  area : Option Int := none
  number_doctors : Option Int := none
  capacity : Option Int := none
  countries : List String := []
  mission_statement : Option String := none
  mission_statement_link : Option String := none
  organization_description : Option String := none
  specialties : List String := []
  procedure : List String := []
  equipment : List String := []
  capability : List String := []
  affiliation_type_ids : List String := []
  reliability_score : Option ℚ := none
  reliability_explanation : Option String := none
deriving DecidableEq

/-- Dict of organization fields as loaded for identity embedding
(db.get_all_organizations_for_embedding) or as otherwise passed to
build_identity_text_from_org.  A dict may carry contact keys as well; the
builder never reads them, which is exactly what claim C4 is about. -/
structure OrgDict where
  id : Nat := 0
  canonical_name : Option String := none
  organization_type : Option String := none
  address_city : Option String := none
  address_line1 : Option String := none
  address_country : Option String := none
  address_country_code : Option String := none
  phone_numbers : List String := []
  official_website : Option String := none
  websites : List String := []
deriving DecidableEq

/-- Python truthiness of an optional string: present and non-empty. -/
def truthyStr : Option String → Bool
  | none => false
  | some s => s ≠ ""

/-- Python x or y on optional strings (left operand if truthy, else right). -/
def pyOr (a b : Option String) : Option String :=
  if truthyStr a then a else b

/-- Final join of identity parts: " | ".join(p for p in parts if p). -/
def joinIdentity (parts : List String) : String :=
  String.intercalate " | " (parts.filter (fun p => p ≠ ""))

/-- identity_embedding.build_identity_text: name, city, first address line,
country (falling back to country code), then the first phone number, else
the official website, else the first listed website.  row.name is a plain
str, so its Python truthiness is written as a non-emptiness test. -/
def build_identity_text (row : ScrapedRow) : String :=
  let parts : List String :=
    (if row.name ≠ "" then [pyStrip row.name] else []) ++
    (if truthyStr row.address_city then [pyStrip (row.address_city.getD "")] else []) ++
    (if truthyStr row.address_line1 then [pyStrip (row.address_line1.getD "")] else []) ++
    (if truthyStr row.address_country || truthyStr row.address_country_code then
      [pyStrip ((pyOr row.address_country row.address_country_code).getD "")] else []) ++
    (match row.phone_numbers with
     | p :: _ => [pyStrip p]
     | [] =>
       if truthyStr row.official_website then [pyStrip (row.official_website.getD "")]
       else
         match row.websites with
         | w :: _ => [pyStrip w]
         | [] => [])
  joinIdentity parts

/-- identity_embedding.build_identity_text_from_org: name, city, first
address line, country falling back to country code.  No contact component
is appended, whatever keys the dict carries. -/
def build_identity_text_from_org (org : OrgDict) : String :=
  let parts : List String :=
    (if truthyStr org.canonical_name then [pyStrip (org.canonical_name.getD "")] else []) ++
    (if truthyStr org.address_city then [pyStrip (org.address_city.getD "")] else []) ++
    (if truthyStr org.address_line1 then [pyStrip (org.address_line1.getD "")] else []) ++
    (if truthyStr org.address_country then [pyStrip (org.address_country.getD "")]
     else if truthyStr org.address_country_code then [pyStrip (org.address_country_code.getD "")]
     else [])
  joinIdentity parts

/-- Row used by the C4 counterexample: a name plus one phone number. -/
def c4Row : ScrapedRow :=
  { name := "Clinic A", phone_numbers := ["+233 1"] }

/-- Organization dict used by the C4 counterexample: the same name and the
same phone number carried in the dict. -/
def c4Org : OrgDict :=
  { canonical_name := some "Clinic A", phone_numbers := ["+233 1"] }

/-- C4 counterexample: for a row and a record dict carrying the same name
and the same phone numbers, the two identity-text builders disagree; the
row builder appends the highest-priority contact component and the record
builder omits it entirely. -/
theorem c4_identity_text_builders_differ_on_contact :
    build_identity_text c4Row = "Clinic A | +233 1" ∧
    build_identity_text_from_org c4Org = "Clinic A" ∧
    build_identity_text c4Row ≠ build_identity_text_from_org c4Org := by
  refine ⟨?_, ?_, ?_⟩ <;> decide

/-- C4 amended: the two identity-text builders agree on the name, city,
first-address-line and country/country-code components, and compute the
same string whenever the row carries no contact value (no phone number, no
official website, no listed website); when the row has a contact value the
row-side text appends it while the record-side text never does. -/
theorem c4_identity_text_agree_without_contact (row : ScrapedRow) (org : OrgDict)
    (hn : org.canonical_name = some row.name)
    (hc : org.address_city = row.address_city)
    (h1 : org.address_line1 = row.address_line1)
    (hco : org.address_country = row.address_country)
    (hcc : org.address_country_code = row.address_country_code)
    (hp : row.phone_numbers = [])
    (hw : row.official_website = none)
    (hws : row.websites = []) :
    build_identity_text row = build_identity_text_from_org org := by
  have tn : truthyStr none = false := rfl
  have ts : ∀ s : String, truthyStr (some s) = true ↔ ¬ s = "" := by
    intro s; simp [truthyStr]
  unfold build_identity_text build_identity_text_from_org
  rw [hn, hc, h1, hco, hcc, hp, hw, hws]
  by_cases hname : row.name = "" <;>
    by_cases hA : truthyStr row.address_country <;>
      by_cases hB : truthyStr row.address_country_code <;>
        simp [pyOr, hname, hA, hB, tn, ts]

/-- Witness for the C4 theorem at a concrete contact-free row/dict pair. -/
theorem c4_identity_text_agree_without_contact_witness :
    build_identity_text { name := "Hope Clinic", address_city := some "Accra" } =
      build_identity_text_from_org
        { canonical_name := some "Hope Clinic", address_city := some "Accra" } := by
  exact c4_identity_text_agree_without_contact
    { name := "Hope Clinic", address_city := some "Accra" }
    { canonical_name := some "Hope Clinic", address_city := some "Accra" }
    rfl rfl rfl rfl rfl rfl rfl rfl

/-- Clamp used both by db._reliability_score and by the merge-agent output
normalization: max(0.0, min(10.0, x)). -/
def pyClampScore (x : ℚ) : ℚ :=
  max 0 (min 10 x)

/-- db._reliability_score: clamp to 0-10, None stays None (the float()
coercion failure branch does not arise for numeric inputs). -/
def reliabilityScoreClamp (val : Option ℚ) : Option ℚ :=
  val.map pyClampScore

/-- Python s[:500] applied only beyond 500 characters, as the merge agent
normalizes explanations. -/
def truncate500 (s : String) : String :=
  if 500 < s.length then pySlice500 s else s

/-- db.upsert_organization, accepts_volunteers encoding:
1 if truthy, 0 if exactly False, NULL if None. -/
def acceptsVolunteersInt (b : Option Bool) : Option Int :=
  match b with
  | some true => some 1
  | some false => some 0
  | none => none

/-- One row of the organizations table in _ORG_COLUMNS order (db.py).
created_at/updated_at timestamps are elided; JSON-encoded list columns are
modelled by their decoded content. -/
structure OrgRow where
  id : Nat := 0
  canonical_name : String := ""
  organization_type : String := "facility"
  phone_numbers : List String := []
  official_phone : Option String := none
  email : Option String := none
  websites : List String := []
  official_website : Option String := none
  year_established : Option Int := none
  accepts_volunteers : Option Int := none
  facebook_link : Option String := none
  twitter_link : Option String := none
  linkedin_link : Option String := none
  instagram_link : Option String := none
  logo : Option String := none
  address_line1 : Option String := none
  address_line2 : Option String := none
  address_line3 : Option String := none
  address_city : Option String := none
  address_state_or_region : Option String := none
  address_zip_or_postcode : Option String := none
  address_country : Option String := none
  address_country_code : Option String := none
  lat : Option ℚ := none
  lon : Option ℚ := none
  organization_group_id : Option Nat := none
  facility_type_id : Option String := none
  operator_type_id : Option String := none
  description : Option String := none
  area : Option Int := none
  number_doctors : Option Int := none
  capacity : Option Int := none
  countries : List String := []
  mission_statement : Option String := none
  mission_statement_link : Option String := none
  organization_description : Option String := none
  reliability_score : Option ℚ := none
  reliability_explanation : Option String := none
deriving DecidableEq

/-- db._merged_to_org_values: the tuple written for one organization row.
Note the reliability explanation goes through _str_or_none only, with no
length cap on this path; the organization_group_id is a generated tag that
is never blank, so its _str_or_none is the identity and it is carried
through as the modelled tag. -/
def mergedToOrgValues (merged : MergedOrganization) (orgId : Nat) : OrgRow :=
  { id := orgId
    canonical_name := merged.canonical_name
    organization_type := merged.organization_type
    phone_numbers := merged.phone_numbers
    official_phone := strOrNoneDb merged.official_phone
    email := strOrNoneDb merged.email
    websites := merged.websites
    official_website := strOrNoneDb merged.official_website
    year_established := merged.year_established
    accepts_volunteers := acceptsVolunteersInt merged.accepts_volunteers
    facebook_link := strOrNoneDb merged.facebook_link
    twitter_link := strOrNoneDb merged.twitter_link
    linkedin_link := strOrNoneDb merged.linkedin_link
    instagram_link := strOrNoneDb merged.instagram_link
    logo := strOrNoneDb merged.logo
    address_line1 := strOrNoneDb merged.address_line1
    address_line2 := strOrNoneDb merged.address_line2
    address_line3 := strOrNoneDb merged.address_line3
    address_city := strOrNoneDb merged.address_city
    address_state_or_region := strOrNoneDb merged.address_state_or_region
    address_zip_or_postcode := strOrNoneDb merged.address_zip_or_postcode
    address_country := strOrNoneDb merged.address_country
    address_country_code := strOrNoneDb merged.address_country_code
    lat := merged.lat
    lon := merged.lon
    organization_group_id := merged.organization_group_id
    facility_type_id := strOrNoneDb merged.facility_type_id
    operator_type_id := strOrNoneDb merged.operator_type_id
    description := strOrNoneDb merged.description
    area := merged.area
    number_doctors := merged.number_doctors
    capacity := merged.capacity
    countries := merged.countries
    mission_statement := strOrNoneDb merged.mission_statement
    mission_statement_link := strOrNoneDb merged.mission_statement_link
    organization_description := strOrNoneDb merged.organization_description
    reliability_score := reliabilityScoreClamp merged.reliability_score
    reliability_explanation := strOrNoneDb merged.reliability_explanation }

/-- db.update_reliability, explanation handling: _str_or_none followed by a
500-character cap.  This backfill path is the only persistence path that
truncates the explanation. -/
def updateReliabilityExpl (explanation : Option String) : Option String :=
  let expl := strOrNoneDb explanation
  if 500 < (expl.getD "").length then some (pySlice500 (expl.getD "")) else expl

/-- Draft used by the C9 counterexample: an out-of-range score and a
501-character explanation with no surrounding whitespace. -/
def c9Draft : MergedOrganization :=
  { canonical_name := "X", reliability_score := some 12,
    reliability_explanation := some (String.mk (List.replicate 501 'a')) }

set_option maxRecDepth 8192 in
/-- C9 counterexample: a draft persisted through upsert_organization has its
score clamped, but its 501-character reliability explanation is stored at
full length 501, not truncated to 500 as the claim states. -/
theorem c9_explanation_not_truncated_on_upsert :
    (mergedToOrgValues c9Draft 0).reliability_score = some 10 ∧
    (mergedToOrgValues c9Draft 0).reliability_explanation.map String.length = some 501 := by
  constructor
  · decide
  · decide

/-- C9 amended: every persistence path clamps an out-of-range reliability
score into the range 0 to 10; but only the update_reliability backfill path
truncates the explanation to 500 characters, while upsert_organization
stores the draft explanation merely stripped (null if blank), at full
length. -/
theorem c9_score_clamped_and_backfill_truncated
    (m : MergedOrganization) (orgId : Nat) (e : Option String) :
    (∀ q, (mergedToOrgValues m orgId).reliability_score = some q → 0 ≤ q ∧ q ≤ 10) ∧
    (∀ s, updateReliabilityExpl e = some s → s.length ≤ 500) ∧
    (mergedToOrgValues m orgId).reliability_explanation = strOrNoneDb m.reliability_explanation := by
  refine ⟨?_, ?_, rfl⟩
  · intro q hq
    cases hms : m.reliability_score with
    | none => simp [mergedToOrgValues, reliabilityScoreClamp, hms] at hq
    | some x =>
      have : pyClampScore x = q := by
        simpa [mergedToOrgValues, reliabilityScoreClamp, hms] using hq
      subst this
      unfold pyClampScore
      constructor
      · exact le_max_left 0 _
      · exact max_le (by norm_num) (min_le_left _ _)
  · intro s hs
    unfold updateReliabilityExpl at hs
    by_cases h : 500 < ((strOrNoneDb e).getD "").length
    · rw [if_pos h] at hs
      have : pySlice500 ((strOrNoneDb e).getD "") = s := by
        simpa using hs
      subst this
      unfold pySlice500
      have hlen : (String.mk (((strOrNoneDb e).getD "").toList.take 500)).length
          = (((strOrNoneDb e).getD "").toList.take 500).length := rfl
      rw [hlen, List.length_take]
      omega
    · rw [if_neg h] at hs
      have hgd : ((strOrNoneDb e).getD "") = s := by rw [hs]; rfl
      rw [hgd] at h
      omega

/-- Witness for the C9 theorem at a concrete over-range score. -/
theorem c9_score_clamped_and_backfill_truncated_witness :
    0 ≤ (10 : ℚ) ∧ (10 : ℚ) ≤ 10 := by
  exact (c9_score_clamped_and_backfill_truncated c9Draft 0 none).1 10 (by decide)

/-- Order-preserving de-duplication keeping the first occurrence of each
element, as list(dict.fromkeys(...)) computes in Python; seen holds the
keys already emitted. -/
def keepFirst (seen : List String) : List String → List String
  | [] => []
  | x :: xs => if x ∈ seen then keepFirst seen xs else x :: keepFirst (x :: seen) xs

/-- Membership in keepFirst: exactly the elements of the input not already seen. -/
theorem mem_keepFirst (x : String) (l : List String) :
    ∀ seen, x ∈ keepFirst seen l ↔ x ∈ l ∧ x ∉ seen := by
  induction l with
  | nil => intro seen; simp [keepFirst]
  | cons a xs ih =>
    intro seen
    by_cases h : a ∈ seen
    · rw [keepFirst, if_pos h, ih seen]
      constructor
      · rintro ⟨hx, hs⟩; exact ⟨List.mem_cons_of_mem a hx, hs⟩
      · rintro ⟨hx, hs⟩
        rcases List.mem_cons.mp hx with rfl | hx
        · exact absurd h hs
        · exact ⟨hx, hs⟩
    · rw [keepFirst, if_neg h]
      constructor
      · intro hm
        rcases List.mem_cons.mp hm with rfl | hm
        · exact ⟨List.mem_cons_self x xs, h⟩
        · rcases (ih (a :: seen)).mp hm with ⟨hx, hs⟩
          refine ⟨List.mem_cons_of_mem a hx, fun hcon => hs (List.mem_cons_of_mem a hcon)⟩
      · rintro ⟨hx, hs⟩
        rcases List.mem_cons.mp hx with rfl | hx
        · exact List.mem_cons_self x _
        · by_cases hxa : x = a
          · subst hxa; exact List.mem_cons_self x _
          · exact List.mem_cons_of_mem a
              ((ih (a :: seen)).mpr ⟨hx, by simp [hxa, hs]⟩)

/-- keepFirst is a sublist of its input (order preserved). -/
theorem keepFirst_sublist (l : List String) :
    ∀ seen, (keepFirst seen l).Sublist l := by
  induction l with
  | nil => intro seen; simp [keepFirst]
  | cons a xs ih =>
    intro seen
    by_cases h : a ∈ seen
    · rw [keepFirst, if_pos h]
      exact (ih seen).cons a
    · rw [keepFirst, if_neg h]
      exact (ih (a :: seen)).cons₂ a

/-- keepFirst never emits an element twice. -/
theorem keepFirst_nodup (l : List String) :
    ∀ seen, (keepFirst seen l).Nodup := by
  induction l with
  | nil => intro seen; simp [keepFirst]
  | cons a xs ih =>
    intro seen
    by_cases h : a ∈ seen
    · rw [keepFirst, if_pos h]; exact ih seen
    · rw [keepFirst, if_neg h]
      refine List.nodup_cons.mpr ⟨?_, ih (a :: seen)⟩
      intro hcon
      exact ((mem_keepFirst a xs (a :: seen)).mp hcon).2 (List.mem_cons_self a seen)

/-- merge_agent._merge_rows_with_agent, per-field enrichment (lines 142-147):
list(dict.fromkeys(values of the assigned rows)) with a Python-or fallback
to the upstream judgment value when the recomputed union is empty. -/
def enrichListField (vals : List (List String)) (upstream : List String) : List String :=
  let u := keepFirst [] vals.flatten
  if u = [] then upstream else u

/-- C5: whenever the assigned rows carry at least one value for a list
field, the persisted field is exactly the order-preserving de-duplicated
union over the assigned rows, ignoring the upstream judgment value: the
result has no duplicates, has the same members as the concatenation of the
assigned rows' values, and preserves their first-occurrence order.  (When
the union is empty the code keeps the upstream value instead; that case is
the counterexample.) -/
theorem c5_union_recomputed_when_nonempty (vals : List (List String)) (upstream : List String)
    (h : vals.flatten ≠ []) :
    enrichListField vals upstream = keepFirst [] vals.flatten ∧
    (enrichListField vals upstream).Nodup ∧
    (∀ x, x ∈ enrichListField vals upstream ↔ x ∈ vals.flatten) ∧
    (enrichListField vals upstream).Sublist vals.flatten := by
  have hu : keepFirst [] vals.flatten ≠ [] := by
    cases hj : vals.flatten with
    | nil => exact absurd hj h
    | cons a t =>
      simp [keepFirst]
  have he : enrichListField vals upstream = keepFirst [] vals.flatten := by
    unfold enrichListField
    simp [hu]
  refine ⟨he, ?_, ?_, ?_⟩
  · rw [he]; exact keepFirst_nodup vals.flatten []
  · intro x
    rw [he, mem_keepFirst]
    simp
  · rw [he]; exact keepFirst_sublist vals.flatten []

/-- Witness for the C5 theorem at a concrete pair of assigned-row value
lists with an overlapping element and a non-empty upstream value. -/
theorem c5_union_recomputed_when_nonempty_witness :
    enrichListField [["a", "b"], ["b", "c"]] ["z"] = ["a", "b", "c"] := by
  have h := (c5_union_recomputed_when_nonempty [["a", "b"], ["b", "c"]] ["z"] (by decide)).1
  rw [h]
  decide

/-- merge_agent output normalization (lines 119-129): clamp the reliability
score to 0-10 and cap the explanation at 500 characters; list-valued fields
that were JSON null become empty lists, which is inherent in the model
types. -/
def normalizeDraft (m : MergedOrganization) : MergedOrganization :=
  { m with
    reliability_score := m.reliability_score.map pyClampScore
    reliability_explanation := m.reliability_explanation.map truncate500 }

/-- Judgment-service payload in the shape the engine validates
(merge_agent lines 108-130): optional existing-record id, draft list,
optional row assignments with Python int indices. -/
structure AgentOutput where
  existing_organization_id : Option Nat := none
  merged_organizations : List MergedOrganization := []
  row_assignments : Option (List (List Int)) := none
deriving DecidableEq

/-- models.MergeDecision as returned by the engine after validation,
repair and enrichment. -/
structure MergeDecision where
  existing_organization_id : Option Nat := none
  merged_organizations : List MergedOrganization := []
  row_assignments : Option (List (List Int)) := none
deriving DecidableEq

/-- merge_agent line 132: fallback draft built from the first row when the
judgment returned no merged_organizations at all. -/
def defaultDraftFor (r : ScrapedRow) : MergedOrganization :=
  { canonical_name := r.name, organization_type := r.organization_type }

/-- Python [rows[j] for j in indices if 0 <= j < len(rows)]. -/
def assignedRows (rows : List ScrapedRow) (indices : List Int) : List ScrapedRow :=
  indices.filterMap (fun j =>
    if 0 ≤ j ∧ j < (rows.length : Int) then rows.get? j.toNat else none)

/-- merge_agent lines 138-147: recompute the seven list-valued fields of a
draft from the rows assigned to it.  Python computes specialties with
list(set(...)), whose enumeration order is implementation-defined; that
order is the setOrder parameter, a function from the concatenated values to
some enumeration of their set.  The other six fields use
list(dict.fromkeys(...)); every field falls back to the upstream draft
value when the recomputed union is empty (Python or). -/
def enrichDraft (setOrder : List String → List String) (assigned : List ScrapedRow)
    (m : MergedOrganization) : MergedOrganization :=
  { m with
    specialties :=
      (let u := setOrder (assigned.map (fun r => r.specialties)).flatten
       if u = [] then m.specialties else u)
    procedure := enrichListField (assigned.map (fun r => r.procedure)) m.procedure
    equipment := enrichListField (assigned.map (fun r => r.equipment)) m.equipment
    capability := enrichListField (assigned.map (fun r => r.capability)) m.capability
    phone_numbers := enrichListField (assigned.map (fun r => r.phone_numbers)) m.phone_numbers
    websites := enrichListField (assigned.map (fun r => r.websites)) m.websites
    affiliation_type_ids :=
      enrichListField (assigned.map (fun r => r.affiliation_type_ids)) m.affiliation_type_ids }

/-- Default assignment list(range(n)) wrapped as the single partition the
engine substitutes when the judgment gives no usable assignment. -/
def rangeAssignments (n : Nat) : List (List Int) :=
  [(List.range n).map Int.ofNat]

/-- merge_agent lines 130-148: validation, repair and enrichment of the raw
judgment payload into the final MergeDecision.  Empty merged_organizations
are replaced by a single default draft covering all rows; a missing, empty
or length-mismatched row_assignments is replaced by the single all-rows
assignment; then each draft's list fields are recomputed from its assigned
rows.  The source indexes rows[0] for the default draft and is only called
with at least one row; the model totalizes that access with headD. -/
def finalizeDecision (setOrder : List String → List String) (rows : List ScrapedRow)
    (out : AgentOutput) : MergeDecision :=
  let merged0 := out.merged_organizations.map normalizeDraft
  let merged1 := if merged0 = [] then [defaultDraftFor (rows.headD {})] else merged0
  let ra1 : Option (List (List Int)) :=
    if merged0 = [] then some (rangeAssignments rows.length) else out.row_assignments
  let ra2 : List (List Int) :=
    match ra1 with
    | none => rangeAssignments rows.length
    | some l => if l = [] ∨ l.length ≠ merged1.length then rangeAssignments rows.length else l
  let merged2 := merged1.mapIdx (fun i m =>
    enrichDraft setOrder (assignedRows rows (ra2.getD i [])) m)
  { existing_organization_id := out.existing_organization_id
    merged_organizations := merged2
    row_assignments := some ra2 }

/-- Rows used by the C6 counterexample: two input rows. -/
def c6Rows : List ScrapedRow :=
  [{ name := "A" }, { name := "B" }]

/-- Judgment payload used by the C6 counterexample: two drafts and a
length-matching but invalid assignment that repeats index 0 and omits
index 1. -/
def c6Out : AgentOutput :=
  { merged_organizations := [{ canonical_name := "A" }, { canonical_name := "B" }]
    row_assignments := some [[0], [0]] }

/-- C6 counterexample: for two rows, a judgment output whose row_assignments
has the right length but repeats index 0 and omits index 1 is passed
through unrepaired, so the returned MergeDecision is not a partition of
the row indices: index 0 appears twice and index 1 never. -/
theorem c6_invalid_assignment_passed_through :
    (finalizeDecision (keepFirst []) c6Rows c6Out).row_assignments = some [[0], [0]] ∧
    (((finalizeDecision (keepFirst []) c6Rows c6Out).row_assignments.getD
        []).flatten.count (0 : Int)) = 2 ∧
    (((finalizeDecision (keepFirst []) c6Rows c6Out).row_assignments.getD
        []).flatten.count (1 : Int)) = 0 := by
  refine ⟨?_, ?_, ?_⟩ <;> decide

/-- C6 amended: the engine repairs only a missing (or empty, or
length-mismatched) row_assignments, replacing it by the single all-rows
assignment, which does cover every index 0..n-1 exactly once; a
judgment-provided assignment of matching length is passed through without
any validation of its contents.  This theorem proves the repaired default
case: when the judgment provides no assignment, the returned decision
assigns every row to one draft and each index appears exactly once. -/
theorem c6_default_assignment_complete (setOrder : List String → List String)
    (rows : List ScrapedRow) (out : AgentOutput)
    (h : out.row_assignments = none) :
    (finalizeDecision setOrder rows out).row_assignments =
      some (rangeAssignments rows.length) ∧
    ∀ i, i < rows.length →
      (((finalizeDecision setOrder rows out).row_assignments.getD
        []).flatten.count (Int.ofNat i)) = 1 := by
  have hra : (finalizeDecision setOrder rows out).row_assignments =
      some (rangeAssignments rows.length) := by
    unfold finalizeDecision
    by_cases hm : out.merged_organizations.map normalizeDraft = []
    · simp [hm, h, rangeAssignments]
    · simp [hm, h]
  refine ⟨hra, ?_⟩
  intro i hi
  rw [hra]
  have hflat : ((some (rangeAssignments rows.length)).getD []).flatten
      = (List.range rows.length).map Int.ofNat := by
    simp [rangeAssignments]
  rw [hflat]
  have hinj : Function.Injective Int.ofNat := fun a b hab => Int.ofNat.inj hab
  rw [List.count_map_of_injective _ _ hinj]
  exact List.count_eq_one_of_mem (List.nodup_range rows.length) (List.mem_range.mpr hi)

/-- Witness for the C6 theorem: one row, a judgment with no assignment. -/
theorem c6_default_assignment_complete_witness :
    (((finalizeDecision (keepFirst []) [{ name := "W" }]
        {}).row_assignments.getD []).flatten.count (Int.ofNat 0)) = 1 := by
  exact (c6_default_assignment_complete (keepFirst []) [{ name := "W" }] {} rfl).2 0
    (by decide)

/-- Row used by the C5 counterexample: carries no phone number. -/
def c5Row : ScrapedRow :=
  { name := "P" }

/-- Judgment payload used by the C5 counterexample: its draft carries a
phone number that no assigned row carries. -/
def c5Out : AgentOutput :=
  { merged_organizations := [{ canonical_name := "P", phone_numbers := ["+233 9"] }]
    row_assignments := some [[0]] }

/-- C5 counterexample: the claim says each list field of a resulting draft
equals the de-duplicated union over exactly its assigned rows, recomputed
rather than taken from the upstream judgment; but when that union is empty
the engine keeps the upstream value, so the draft for a phone-less row
retains the judgment-invented phone number instead of the empty union. -/
theorem c5_union_falls_back_to_upstream :
    (finalizeDecision (keepFirst []) [c5Row] c5Out).merged_organizations.map
        (fun m => m.phone_numbers) = [["+233 9"]] ∧
    ([c5Row].map (fun r => r.phone_numbers)).flatten = [] := by
  constructor <;> decide

/-- One row of the organization_sources table (surrogate id elided). -/
structure SourceRow where
  organization_id : Nat := 0
  source_url : String := ""
  content_table_id : Option String := none
  mongo_db : Option String := none
  raw_unique_id : Option String := none
deriving DecidableEq

/-- State of the relational store touched by the pipeline: organizations
with child specialty/fact/affiliation rows, provenance sources, and the
processed_rows idempotency ledger keyed by (source_url, content_table_id
or empty string). -/
structure DB where
  organizations : List OrgRow := []
  organization_specialties : List (Nat × String) := []
  organization_facts : List (Nat × String × String) := []
  organization_affiliations : List (Nat × String) := []
  organization_sources : List SourceRow := []
  processed_rows : List ((String × String) × Nat) := []
deriving DecidableEq

/-- INSERT OR IGNORE into a table with a unique (organization_id, value)
pair. -/
def insertIgnorePair (l : List (Nat × String)) (p : Nat × String) : List (Nat × String) :=
  if p ∈ l then l else l ++ [p]

/-- Conflict target of organization_sources: unique (organization_id,
source_url, content_table_id).  SQLite treats NULL content_table_id values
as distinct, so a NULL never conflicts. -/
def sourceKeyMatches (t s : SourceRow) : Bool :=
  t.organization_id = s.organization_id && t.source_url = s.source_url &&
    match t.content_table_id, s.content_table_id with
    | some a, some b => a = b
    | _, _ => false

/-- INSERT ... ON CONFLICT DO UPDATE for organization_sources: on conflict
only mongo_db and raw_unique_id are refreshed. -/
def upsertSource (l : List SourceRow) (s : SourceRow) : List SourceRow :=
  if l.any (fun t => sourceKeyMatches t s) then
    l.map (fun t =>
      if sourceKeyMatches t s then
        { t with mongo_db := s.mongo_db, raw_unique_id := s.raw_unique_id }
      else t)
  else l ++ [s]

/-- One SQL write statement executed by db.upsert_organization or
db.record_processed. -/
inductive DbWrite where
  | upsertOrg (r : OrgRow) (existing : Bool)
  | deleteSpecialties (org : Nat)
  | insertSpecialty (org : Nat) (s : String)
  | deleteFacts (org : Nat)
  | insertFact (org : Nat) (factType v : String)
  | deleteAffiliations (org : Nat)
  | insertAffiliation (org : Nat) (a : String)
  | upsertSourceRow (s : SourceRow)
  | replaceProcessed (url : String) (ct : Option String) (org : Nat)
deriving DecidableEq

/-- Effect of one SQL write on the store.  UPDATE of an organization
replaces every column of the matching row; INSERT appends; the ledger
INSERT OR REPLACE keys on (source_url, content_table_id or ""). -/
def applyWrite (db : DB) : DbWrite → DB
  | .upsertOrg r existing =>
    if existing then
      { db with organizations := db.organizations.map (fun o => if o.id = r.id then r else o) }
    else
      { db with organizations := db.organizations ++ [r] }
  | .deleteSpecialties org =>
    { db with organization_specialties := db.organization_specialties.filter (fun p => p.1 ≠ org) }
  | .insertSpecialty org s =>
    { db with organization_specialties := insertIgnorePair db.organization_specialties (org, s) }
  | .deleteFacts org =>
    { db with organization_facts := db.organization_facts.filter (fun f => f.1 ≠ org) }
  | .insertFact org factType v =>
    { db with organization_facts := db.organization_facts ++ [(org, factType, v)] }
  | .deleteAffiliations org =>
    { db with organization_affiliations := db.organization_affiliations.filter (fun p => p.1 ≠ org) }
  | .insertAffiliation org a =>
    { db with organization_affiliations := insertIgnorePair db.organization_affiliations (org, a) }
  | .upsertSourceRow s =>
    { db with organization_sources := upsertSource db.organization_sources s }
  | .replaceProcessed url ct org =>
    { db with processed_rows :=
        (db.processed_rows.filter (fun e => e.1 ≠ (url, ct.getD ""))) ++ [((url, ct.getD ""), org)] }

/-- The sequence of writes db.upsert_organization issues for one draft, in
statement order: organization upsert, child-table replaces (delete then
filtered inserts of non-blank stripped values), then provenance upserts. -/
def upsertWrites (merged : MergedOrganization) (source_rows : List ScrapedRow)
    (existing_org_id : Option Nat) (freshId : Nat) : List DbWrite :=
  let org_id := existing_org_id.getD freshId
  [DbWrite.upsertOrg (mergedToOrgValues merged org_id) existing_org_id.isSome] ++
  [DbWrite.deleteSpecialties org_id] ++
  merged.specialties.filterMap (fun s =>
    if s ≠ "" then some (.insertSpecialty org_id (pyStrip s)) else none) ++
  [DbWrite.deleteFacts org_id] ++
  merged.procedure.filterMap (fun p =>
    if p ≠ "" then some (.insertFact org_id "procedure" (pyStrip p)) else none) ++
  merged.equipment.filterMap (fun e =>
    if e ≠ "" then some (.insertFact org_id "equipment" (pyStrip e)) else none) ++
  merged.capability.filterMap (fun c =>
    if c ≠ "" then some (.insertFact org_id "capability" (pyStrip c)) else none) ++
  [DbWrite.deleteAffiliations org_id] ++
  merged.affiliation_type_ids.filterMap (fun a =>
    if a ≠ "" then some (.insertAffiliation org_id (pyStrip a)) else none) ++
  source_rows.map (fun row =>
    DbWrite.upsertSourceRow
      { organization_id := org_id, source_url := row.source_url,
        content_table_id := row.content_table_id,
        mongo_db := strOrNoneDb row.mongo_db, raw_unique_id := row.unique_id })

/-- db.upsert_organization: apply all of its writes and return the
organization id (the provided existing id, else the freshly generated
one). -/
def upsert_organization (db : DB) (merged : MergedOrganization)
    (source_rows : List ScrapedRow) (existing_org_id : Option Nat) (freshId : Nat) :
    DB × Nat :=
  ((upsertWrites merged source_rows existing_org_id freshId).foldl applyWrite db,
    existing_org_id.getD freshId)

/-- db.record_processed: INSERT OR REPLACE one ledger entry. -/
def record_processed (db : DB) (url : String) (ct : Option String) (org : Nat) : DB :=
  applyWrite db (.replaceProcessed url ct org)

/-- Candidate summary dict loaded by db.get_organization_by_id and
db.get_organization_by_mongo_db. -/
structure OrgSummary where
  id : Nat := 0
  canonical_name : String := ""
  organization_type : String := "facility"
  address_city : Option String := none
  address_line1 : Option String := none
  address_country_code : Option String := none
deriving DecidableEq

/-- Projection of an organization row to the candidate summary columns. -/
def orgRowToSummary (o : OrgRow) : OrgSummary :=
  { id := o.id, canonical_name := o.canonical_name,
    organization_type := o.organization_type, address_city := o.address_city,
    address_line1 := o.address_line1, address_country_code := o.address_country_code }

/-- db.get_organization_by_id. -/
def get_organization_by_id (db : DB) (oid : Nat) : Option OrgSummary :=
  (db.organizations.find? (fun o => o.id = oid)).map orgRowToSummary

/-- db.get_candidates: look up each id, dropping ids with no row. -/
def get_candidates (db : DB) (ids : List Nat) : List OrgSummary :=
  ids.filterMap (get_organization_by_id db)

/-- db.get_organization_by_mongo_db: first organization joined to a source
row carrying this mongo_db tag (LIMIT 1 in source order). -/
def get_organization_by_mongo_db (db : DB) (m : String) : Option OrgSummary :=
  (db.organization_sources.find? (fun s => s.mongo_db = strOrNoneDb (some m))).bind
    (fun s => get_organization_by_id db s.organization_id)

/-- Dict of identity fields per organization returned by
db.get_all_organizations_for_embedding (no contact columns selected). -/
def orgRowToDict (o : OrgRow) : OrgDict :=
  { id := o.id, canonical_name := some o.canonical_name,
    address_city := o.address_city, address_line1 := o.address_line1,
    address_country := o.address_country,
    address_country_code := o.address_country_code }

/-- db.get_all_organizations_for_embedding. -/
def get_all_organizations_for_embedding (db : DB) : List OrgDict :=
  db.organizations.map orgRowToDict

/-- Error raised by an external API call: a rate-limit (429) error or any
other failure. -/
inductive ApiErr where
  | rateLimit
  | other
deriving DecidableEq

/-- Python exception kinds the pipeline can observe: an OpenAI
RateLimitError propagating unwrapped, a RuntimeError (the embedding layer
wraps every failure, rate limits included, into RuntimeError), or any
other exception. -/
inductive PyErr where
  | rateLimitErr
  | runtimeErr
  | otherErr
deriving DecidableEq

/-- api_errors.is_rate_limit_error: true only for the distinguished
rate-limit exception class; a RuntimeError wrapping one is not
recognized. -/
def is_rate_limit_error : PyErr → Bool
  | .rateLimitErr => true
  | _ => false

/-- Embedding vector handle.  Vectors are opaque to the pipeline control
flow; only the similarity oracle ever interprets them. -/
abbrev Vec := Nat

/-- Embedding cache keyed by identity text (identity_embedding._embed_cache). -/
abbrev EmbCache := List (String × Vec)

/-- External collaborators of the core, as oracles: the batch and single
embedding endpoints, the cosine-similarity value of two stored vectors,
the merge-judgment LLM, the reliability LLM, and the enumeration order of
a Python set (implementation-defined, used only for specialties). -/
structure Services where
  embedBatch : List String → Except ApiErr (List Vec)
  embedOne : String → Except ApiErr Vec
  sim : Vec → Vec → ℚ
  judge : List ScrapedRow → List OrgSummary → Option OrgSummary → Except ApiErr AgentOutput
  reliability : MergedOrganization → Except ApiErr (Option ℚ × Option String)
  setOrder : List String → List String

/-- config.EMBEDDING_SIMILARITY_THRESHOLD default 0.78 (written with mkRat
so comparisons evaluate in the kernel). -/
def EMBEDDING_SIMILARITY_THRESHOLD : ℚ := mkRat 78 100

/-- config.MAX_CANDIDATES_FOR_AGENT default. -/
def MAX_CANDIDATES_FOR_AGENT : Nat := 5

/-- config.GEOCODE_ENABLED default: geocoding is off unless the env flag is
set, so the pipeline geocode branch is dead in the modelled default
configuration. -/
def GEOCODE_ENABLED : Bool := false

/-- identity_embedding._EMBED_CACHE_MAX. -/
def EMBED_CACHE_MAX : Nat := 2000

/-- identity_embedding._embed_cache_evict: below the cap do nothing, else
drop the first half of the keys in insertion order. -/
def embedCacheEvict (cache : EmbCache) : EmbCache :=
  if cache.length < EMBED_CACHE_MAX then cache else cache.drop (EMBED_CACHE_MAX / 2)

/-- identity_embedding.embed_identity: serve from the cache by text, else
call the API; any API failure, a rate limit included, is re-raised as
RuntimeError, losing its rate-limit identity. -/
def embed_identity (svc : Services) (cache : EmbCache) (text : String) :
    Except PyErr (Vec × EmbCache) :=
  let key := if text = "" then " " else text
  match cache.lookup key with
  | some v => .ok (v, cache)
  | none =>
    match svc.embedOne key with
    | .error _ => .error .runtimeErr
    | .ok v => .ok (v, embedCacheEvict cache ++ [(key, v)])

/-- identity_embedding.embed_identity_batch: one batched call (the
source chunks requests of 100, which the oracle absorbs); any failure is
re-raised as RuntimeError. -/
def embed_identity_batch (svc : Services) (texts : List String) :
    Except PyErr (List Vec) :=
  if texts = [] then .ok []
  else
    match svc.embedBatch (texts.map (fun t => if t = "" then " " else t)) with
    | .error _ => .error .runtimeErr
    | .ok vs => .ok vs

/-- embedding_store.upsert_embedding: replace any prior vector for the id
and append. -/
def upsert_embedding (store : List (Nat × Vec)) (oid : Nat) (v : Vec) : List (Nat × Vec) :=
  (store.filter (fun p => p.1 ≠ oid)) ++ [(oid, v)]

/-- Descending order on (id, similarity) pairs used by
embedding_store.search_similar via sort(key=-score). -/
def simGe (a b : Nat × ℚ) : Prop := b.2 ≤ a.2

instance : DecidableRel simGe := fun a b => inferInstanceAs (Decidable (b.2 ≤ a.2))

/-- embedding_store.search_similar: score the whole store with cosine
similarity, sort descending and keep top_k.  The Python sort is stable;
nothing proved here depends on the tie order, for which insertionSort may
differ. -/
def search_similar (svc : Services) (store : List (Nat × Vec)) (query : Vec)
    (topK : Nat) : List (Nat × ℚ) :=
  if store = [] then []
  else
    let scored := store.map (fun p => (p.1, svc.sim query p.2))
    (scored.insertionSort simGe).take topK

/-- pipeline.process_batch lines 144-158, the Candidate Retriever block:
short-circuit to the mongo-linked record only when the group key is
non-null and the representative row carries a truthy mongo_db tag and the
lookup hits; otherwise embed the representative identity text, search the
top 10, keep scores at or above the threshold, cap at the candidate
maximum and load the summaries.  The returned Bool records whether the
embedding path ran; the cache is returned as possibly extended by the
embedding call. -/
def retrieve_candidates (svc : Services) (db : DB) (store : List (Nat × Vec))
    (cache : EmbCache) (pk : Option Int) (first : ScrapedRow) :
    Except PyErr (Option OrgSummary × List OrgSummary × Bool × EmbCache) :=
  let current_org :=
    if pk.isSome && truthyStr first.mongo_db then
      get_organization_by_mongo_db db (first.mongo_db.getD "")
    else none
  match current_org with
  | some org => .ok (some org, [org], false, cache)
  | none =>
    match embed_identity svc cache (build_identity_text first) with
    | .error e => .error e
    | .ok (v, cache1) =>
      let similar := search_similar svc store v 10
      let close :=
        (similar.filter (fun x => EMBEDDING_SIMILARITY_THRESHOLD ≤ x.2)).take
          MAX_CANDIDATES_FOR_AGENT
      let candidates :=
        if close = [] then [] else get_candidates db (close.map (fun x => x.1))
      .ok (none, candidates, true, cache1)

/-- A successful get_organization_by_id returns a summary whose id is the
requested id. -/
theorem get_organization_by_id_id (db : DB) (oid : Nat) (c : OrgSummary)
    (h : get_organization_by_id db oid = some c) : c.id = oid := by
  unfold get_organization_by_id at h
  cases hf : db.organizations.find? (fun o => o.id = oid) with
  | none => rw [hf] at h; cases h
  | some r =>
    rw [hf] at h
    have hr := List.find?_some hf
    simp at hr
    have : orgRowToSummary r = c := by
      cases h
      rfl
    rw [← this]
    simpa [orgRowToSummary] using hr

/-- Oracle set used by the C7 counterexample: embeddings succeed and every
similarity is zero (the embedded text differs from every stored text). -/
def c7Services : Services :=
  { embedBatch := fun ts => .ok (List.replicate ts.length 1)
    embedOne := fun _ => .ok 1
    sim := fun _ _ => 0
    judge := fun _ _ _ => .error .other
    reliability := fun _ => .ok (none, none)
    setOrder := keepFirst [] }

/-- Store used by the C7 counterexample: one organization whose provenance
carries the source tag tagX. -/
def c7Db : DB :=
  { organizations := [{ id := 0, canonical_name := "X" }]
    organization_sources := [{ organization_id := 0, source_url := "u", mongo_db := some "tagX" }] }

/-- Representative row used by the C7 counterexample: it carries the linked
source tag but belongs to a keyless group. -/
def c7Row : ScrapedRow :=
  { name := "X", source_url := "u", mongo_db := some "tagX" }

/-- C7 counterexample: a keyless group (pk_unique_id None) whose row
carries a source tag already linked to an existing record is not
short-circuited: the code additionally requires a non-null group key, so
it runs the embedding search (flag true), finds nothing above threshold,
and returns no candidates instead of the linked record alone. -/
theorem c7_keyless_group_source_tag_not_short_circuited :
    get_organization_by_mongo_db c7Db "tagX" = some { id := 0, canonical_name := "X" } ∧
    (retrieve_candidates c7Services c7Db [] [] none c7Row).toOption =
      some (none, [], true, [("X", 1)]) := by
  constructor <;> decide

/-- C7 amended: candidate retrieval short-circuits to the mongo-linked
record as sole candidate with no embedding call only when the group key is
non-null as well as the source tag present and linked; in every other case
the representative identity text is embedded and the candidates are drawn
from the top-10 similarity results, keeping only scores at or above the
0.78 threshold and at most 5 candidates. -/
theorem c7_retrieve_candidates_characterization (svc : Services) (db : DB)
    (store : List (Nat × Vec)) (cache : EmbCache) (pk : Option Int) (first : ScrapedRow) :
    (∀ X, (pk.isSome && truthyStr first.mongo_db) = true →
      get_organization_by_mongo_db db (first.mongo_db.getD "") = some X →
      retrieve_candidates svc db store cache pk first = .ok (some X, [X], false, cache)) ∧
    (∀ v cache1,
      (if pk.isSome && truthyStr first.mongo_db then
        get_organization_by_mongo_db db (first.mongo_db.getD "") else none) = none →
      embed_identity svc cache (build_identity_text first) = .ok (v, cache1) →
      ∃ cands,
        retrieve_candidates svc db store cache pk first = .ok (none, cands, true, cache1) ∧
        cands.length ≤ MAX_CANDIDATES_FOR_AGENT ∧
        ∀ c ∈ cands, ∃ s, (c.id, s) ∈ search_similar svc store v 10 ∧
          EMBEDDING_SIMILARITY_THRESHOLD ≤ s) := by
  constructor
  · intro X hcond hlook
    unfold retrieve_candidates
    simp [hcond, hlook]
  · intro v cache1 hnone hemb
    unfold retrieve_candidates
    rw [hnone, hemb]
    refine ⟨(if ((search_similar svc store v 10).filter
        (fun x => EMBEDDING_SIMILARITY_THRESHOLD ≤ x.2)).take MAX_CANDIDATES_FOR_AGENT = []
      then []
      else get_candidates db
        ((((search_similar svc store v 10).filter
          (fun x => EMBEDDING_SIMILARITY_THRESHOLD ≤ x.2)).take
            MAX_CANDIDATES_FOR_AGENT).map (fun x => x.1))), rfl, ?_, ?_⟩
    · by_cases hcl :
        ((search_similar svc store v 10).filter
          (fun x => EMBEDDING_SIMILARITY_THRESHOLD ≤ x.2)).take MAX_CANDIDATES_FOR_AGENT = []
      · rw [if_pos hcl]
        decide
      · rw [if_neg hcl]
        unfold get_candidates
        refine le_trans (List.length_filterMap_le _ _) ?_
        rw [List.length_map]
        exact List.length_take_le _ _
    · intro c hc
      by_cases hcl :
        ((search_similar svc store v 10).filter
          (fun x => EMBEDDING_SIMILARITY_THRESHOLD ≤ x.2)).take MAX_CANDIDATES_FOR_AGENT = []
      · rw [if_pos hcl] at hc
        cases hc
      · rw [if_neg hcl] at hc
        unfold get_candidates at hc
        rcases List.mem_filterMap.mp hc with ⟨oid, hoidmem, hload⟩
        have hid := get_organization_by_id_id db oid c hload
        rcases List.mem_map.mp hoidmem with ⟨x, hx, hfst⟩
        have hxf : x ∈ (search_similar svc store v 10).filter
            (fun y => EMBEDDING_SIMILARITY_THRESHOLD ≤ y.2) := List.mem_of_mem_take hx
        rcases List.mem_filter.mp hxf with ⟨hxs, hxp⟩
        refine ⟨x.2, ?_, by simpa using hxp⟩
        have : (c.id, x.2) = x := by
          rw [hid, ← hfst]
        rw [this]
        exact hxs

/-- Witness for the C7 theorem: keyed group with a linked source tag is
short-circuited to exactly the linked record with no embedding call. -/
theorem c7_retrieve_candidates_characterization_witness :
    retrieve_candidates c7Services c7Db [] [] (some 1) c7Row =
      .ok (some { id := 0, canonical_name := "X" },
        [{ id := 0, canonical_name := "X" }], false, []) := by
  exact (c7_retrieve_candidates_characterization c7Services c7Db [] [] (some 1) c7Row).1
    { id := 0, canonical_name := "X" } (by decide) (by decide)

/-- merge_agent.run_merge_agent: the LLM call itself; an OpenAI
RateLimitError propagates unwrapped out of the agent, other failures
propagate as generic errors, and a successful payload is validated,
repaired and enriched by finalizeDecision. -/
def run_merge_agent (svc : Services) (rows : List ScrapedRow)
    (candidates : List OrgSummary) (current_org : Option OrgSummary) :
    Except PyErr MergeDecision :=
  match svc.judge rows candidates current_org with
  | .error .rateLimit => .error .rateLimitErr
  | .error .other => .error .otherErr
  | .ok out => .ok (finalizeDecision svc.setOrder rows out)

/-- merge_agent.row_to_merged_organization: draft built directly from a
single row with no LLM call (official_phone, lat/lon, group id, geocode
query and reliability are left unset, as in the source). -/
def row_to_merged_organization (row : ScrapedRow) : MergedOrganization :=
  { canonical_name := if row.name = "" then "Unknown" else row.name
    organization_type := row.organization_type
    phone_numbers := row.phone_numbers
    email := row.email
    websites := row.websites
    official_website := row.official_website
    year_established := row.year_established
    accepts_volunteers := row.accepts_volunteers
    facebook_link := row.facebook_link
    twitter_link := row.twitter_link
    linkedin_link := row.linkedin_link
    instagram_link := row.instagram_link
    logo := row.logo
    address_line1 := row.address_line1
    address_line2 := row.address_line2
    address_line3 := row.address_line3
    address_city := row.address_city
    address_state_or_region := row.address_state_or_region
    address_zip_or_postcode := row.address_zip_or_postcode
    address_country := row.address_country
    address_country_code := row.address_country_code
    facility_type_id := row.facility_type_id
    operator_type_id := row.operator_type_id
    description := row.description
    area := row.area
    number_doctors := row.number_doctors
    capacity := row.capacity
    countries := row.countries
    mission_statement := row.mission_statement
    mission_statement_link := row.mission_statement_link
    organization_description := row.organization_description
    specialties := row.specialties
    procedure := row.procedure
    equipment := row.equipment
    capability := row.capability
    affiliation_type_ids := row.affiliation_type_ids }

/-- merge_agent.compute_reliability_for_org: the reliability LLM call; its
except block re-raises only rate-limit errors and maps every other failure
to the (None, None) result; a successful payload is clamped and capped. -/
def compute_reliability_for_org (svc : Services) (m : MergedOrganization) :
    Except PyErr (Option ℚ × Option String) :=
  match svc.reliability m with
  | .error .rateLimit => .error .rateLimitErr
  | .error .other => .ok (none, none)
  | .ok (score, expl) => .ok (score.map pyClampScore, expl.map truncate500)

/-- pipeline._set_reliability_on_merged: compute reliability for a draft
built without the agent and set it on the draft when a score came back. -/
def set_reliability_on_merged (svc : Services) (m : MergedOrganization) :
    Except PyErr MergedOrganization :=
  match compute_reliability_for_org svc m with
  | .error e => .error e
  | .ok (score, expl) =>
    .ok (if score.isSome then
      { m with reliability_score := score, reliability_explanation := expl }
    else m)

/-- pipeline.IngestMetrics. -/
structure IngestMetrics where
  rows_processed : Nat := 0
  new_organizations : Nat := 0
  appended_to_existing : Nat := 0
  rate_limit_hit : Bool := false
deriving DecidableEq

/-- Per-run counters accumulated by process_batch before it builds the
final IngestMetrics. -/
structure Counters where
  rows_processed : Nat := 0
  new_organizations : Nat := 0
  appended_to_existing : Nat := 0
deriving DecidableEq

/-- Mutable state surrounding one process_batch call: the relational store,
the in-memory embedding store and identity-text cache (module globals in
the source, so they persist across calls in one process), and the uuid4
supply modelled as a counter. -/
structure PipelineState where
  db : DB := {}
  store : List (Nat × Vec) := []
  cache : EmbCache := []
  nextId : Nat := 0
deriving DecidableEq

/-- parser.group_by_pk_unique_id: group rows by key preserving
first-occurrence key order and per-key row order (Python dict
semantics). -/
def group_by_pk_unique_id (rows : List ScrapedRow) :
    List (Option Int × List ScrapedRow) :=
  rows.foldl (fun acc r =>
    if acc.any (fun g => g.1 = r.pk_unique_id) then
      acc.map (fun g => if g.1 = r.pk_unique_id then (g.1, g.2 ++ [r]) else g)
    else acc ++ [(r.pk_unique_id, [r])]) []

/-- Sort key of pipeline line 135 (x[0] or 0 equals x[0] for integer keys,
since Python or maps 0 to 0). -/
def groupLe (a b : Option Int × List ScrapedRow) : Prop :=
  a.1.getD 0 ≤ b.1.getD 0

instance : DecidableRel groupLe := fun a b => inferInstanceAs (Decidable (a.1.getD 0 ≤ b.1.getD 0))

/-- pipeline lines 134-139: keyed groups sorted ascending by key, the
keyless group appended last, then an optional group cap. -/
def sortGroups (groups : List (Option Int × List ScrapedRow)) (limit : Option Nat) :
    List (Option Int × List ScrapedRow) :=
  let keyed := (groups.filter (fun g => g.1 ≠ none)).insertionSort groupLe
  let items := keyed ++ groups.filter (fun g => g.1 = none)
  match limit with
  | none => items
  | some k => items.take k

/-- pipeline.bootstrap_embedding_store: batch-embed the identity text of
every stored organization and upsert the vectors; the inner except block
catches every Exception and returns 0, so no failure, rate limits
included, ever escapes this function. -/
def bootstrap_embedding_store (svc : Services) (db : DB)
    (store : List (Nat × Vec)) : Except PyErr (Nat × List (Nat × Vec)) :=
  let items := (get_all_organizations_for_embedding db).map
    (fun o => (o.id, build_identity_text_from_org o))
  let items := items.filter (fun x => x.2 ≠ "")
  if items = [] then .ok (0, store)
  else
    match embed_identity_batch svc (items.map (fun x => x.2)) with
    | .error _ => .ok (0, store)
    | .ok embs =>
      let store1 := ((items.map (fun x => x.1)).zip embs).foldl
        (fun s p => upsert_embedding s p.1 p.2) store
      .ok (items.length, store1)

/-- pipeline.process_batch lines 171-198: persist the drafts of one
decision in order.  Each draft gets the shared group id when the decision
is a multi-location split, its assigned rows (falling back to all rows,
then to the representative), the existing-record target on the first draft
only; its committed writes, counter bumps, re-embedding of the
representative row and per-row ledger entries follow.  The geocode branch
is dead under the default GEOCODE_ENABLED = false.  An error carries the
state already committed. -/
def persistDrafts (svc : Services) (first : ScrapedRow)
    (group_rows : List ScrapedRow) (existing_id : Option Nat)
    (group_id : Option Nat) (nDrafts : Nat) (ra : Option (List (List Int))) :
    List (Nat × MergedOrganization) → Counters → PipelineState →
    Except (PyErr × PipelineState) (Counters × PipelineState)
  | [], c, st => .ok (c, st)
  | (i, m) :: rest, c, st =>
    let m1 := if 1 < nDrafts ∧ m.organization_group_id = none then
      { m with organization_group_id := group_id } else m
    let indices :=
      match ra with
      | some l => if l ≠ [] ∧ i < l.length then l.getD i []
          else (List.range group_rows.length).map Int.ofNat
      | none => (List.range group_rows.length).map Int.ofNat
    let assigned0 := assignedRows group_rows indices
    let assigned := if assigned0 = [] then [first] else assigned0
    let use_existing := if i = 0 then existing_id else none
    let up := upsert_organization st.db m1 assigned use_existing st.nextId
    let st1 := { st with
      db := up.1
      nextId := if use_existing.isSome then st.nextId else st.nextId + 1 }
    let org_id := up.2
    let c1 := if use_existing.isSome then
      { c with appended_to_existing := c.appended_to_existing + 1 }
    else
      { c with new_organizations := c.new_organizations + 1 }
    match embed_identity svc st1.cache (build_identity_text (assigned.headD first)) with
    | .error e => .error (e, st1)
    | .ok (v, cache1) =>
      let st2 := { st1 with
        cache := cache1
        store := upsert_embedding st1.store org_id v }
      let db1 := assigned.foldl
        (fun d row => record_processed d row.source_url row.content_table_id org_id) st2.db
      persistDrafts svc first group_rows existing_id group_id nDrafts ra rest c1
        { st2 with db := db1 }

/-- pipeline.process_batch lines 140-199: one group inside the try block:
candidate retrieval, the cheap single-row path or the merge agent, then
draft persistence and the per-group rows_processed bump. -/
def process_group (svc : Services) (pk : Option Int)
    (group_rows : List ScrapedRow) (c : Counters) (st : PipelineState) :
    Except (PyErr × PipelineState) (Counters × PipelineState) :=
  match group_rows with
  | [] => .ok (c, st)
  | first :: _ =>
    match retrieve_candidates svc st.db st.store st.cache pk first with
    | .error e => .error (e, st)
    | .ok (current_org, candidates, _, cache1) =>
      let st1 := { st with cache := cache1 }
      let decisionE : Except PyErr MergeDecision :=
        if group_rows.length = 1 ∧ candidates = [] ∧ current_org = none then
          match set_reliability_on_merged svc (row_to_merged_organization first) with
          | .error e => .error e
          | .ok merged =>
            .ok { existing_organization_id := none, merged_organizations := [merged],
                  row_assignments := some [[0]] }
        else run_merge_agent svc group_rows candidates current_org
      match decisionE with
      | .error e => .error (e, st1)
      | .ok decision =>
        let existing_id := decision.existing_organization_id
        let gid : Option Nat × PipelineState :=
          if 1 < decision.merged_organizations.length then
            (some st1.nextId, { st1 with nextId := st1.nextId + 1 })
          else (none, st1)
        match persistDrafts svc first group_rows existing_id gid.1
            decision.merged_organizations.length decision.row_assignments
            (decision.merged_organizations.mapIdx (fun i m => (i, m))) {} gid.2 with
        | .error e => .error e
        | .ok (cg, st2) =>
          .ok ({ rows_processed := c.rows_processed + group_rows.length,
                 new_organizations := c.new_organizations + cg.new_organizations,
                 appended_to_existing := c.appended_to_existing + cg.appended_to_existing },
               st2)

/-- pipeline.process_batch group loop with its except handler: a rate-limit
error halts the run and reports the counters accumulated before the failed
group; any other error propagates (with the committed state). -/
def process_groups (svc : Services) :
    List (Option Int × List ScrapedRow) → Counters → PipelineState →
    Except (PyErr × PipelineState) (IngestMetrics × PipelineState)
  | [], c, st =>
    .ok ({ rows_processed := c.rows_processed,
           new_organizations := c.new_organizations,
           appended_to_existing := c.appended_to_existing,
           rate_limit_hit := false }, st)
  | (pk, g) :: rest, c, st =>
    match process_group svc pk g c st with
    | .ok (c1, st1) => process_groups svc rest c1 st1
    | .error (e, st1) =>
      if is_rate_limit_error e then
        .ok ({ rows_processed := c.rows_processed,
               new_organizations := c.new_organizations,
               appended_to_existing := c.appended_to_existing,
               rate_limit_hit := true }, st1)
      else .error (e, st1)

/-- pipeline.process_batch: group, bootstrap the embedding store (whose own
except block makes the rate-limit handler below unreachable), sort the
groups, then process them in order. -/
def process_batch (svc : Services) (rows : List ScrapedRow)
    (limit_groups : Option Nat) (st : PipelineState) :
    Except (PyErr × PipelineState) (IngestMetrics × PipelineState) :=
  let groups := group_by_pk_unique_id rows
  match bootstrap_embedding_store svc st.db st.store with
  | .error e =>
    if is_rate_limit_error e then
      .ok ({ rows_processed := 0, new_organizations := 0,
             appended_to_existing := 0, rate_limit_hit := true }, st)
    else .error (e, st)
  | .ok (_, store1) =>
    process_groups svc (sortGroups groups limit_groups) {} { st with store := store1 }

/-- Oracle set for the C3 scenario: the batch embedding endpoint is
rate-limited, the single embedding endpoint works, and the judgment
service targets the existing linked record. -/
def svcC3 : Services :=
  { embedBatch := fun _ => .error .rateLimit
    embedOne := fun _ => .ok 7
    sim := fun _ _ => 1
    judge := fun _ _ _ =>
      .ok { existing_organization_id := some 0
            merged_organizations := [{ canonical_name := "Clinic A" }]
            row_assignments := some [[0]] }
    reliability := fun _ => .ok (none, none)
    setOrder := keepFirst [] }

/-- Store state for the C3 scenario: one canonical organization already
linked to the source tag vf_gh. -/
def c3State : PipelineState :=
  { db := { organizations := [{ id := 0, canonical_name := "Clinic A" }]
            organization_sources :=
              [{ organization_id := 0, source_url := "u0", mongo_db := some "vf_gh" }] }
    nextId := 1 }

/-- Input row for the C3 scenario: keyed group linked by the source tag, so
its own processing needs no embedding search. -/
def c3Row : ScrapedRow :=
  { name := "Clinic B", source_url := "u1", pk_unique_id := some 1, mongo_db := some "vf_gh" }

/-- C3 evaluation at the failing input: the embedding service raises a
rate-limit error during the bootstrap batch call (whose input is exactly
the stored identity text), yet bootstrap_embedding_store swallows it, the
run continues, processes the group and returns completed metrics with
rate_limit_hit = false — not the claimed halted-early result.  The
unreachable bootstrap rate-limit handler in process_batch never fires
because embed_identity_batch wraps the error into RuntimeError and the
bootstrap except block then returns 0. -/
theorem c3_bootstrap_rate_limit_swallowed :
    ((get_all_organizations_for_embedding c3State.db).map
      (fun o => build_identity_text_from_org o)) = ["Clinic A"] ∧
    svcC3.embedBatch ["Clinic A"] = .error .rateLimit ∧
    (process_batch svcC3 [c3Row] none c3State).toOption.map (fun p => p.1) =
      some { rows_processed := 1, new_organizations := 0,
             appended_to_existing := 1, rate_limit_hit := false } := by
  refine ⟨by decide, rfl, by decide⟩

/-- Oracle set for the C1 scenario: embeddings are deterministic by text,
identical vectors have similarity 1 and distinct vectors similarity 0
(the row-side and record-side identity texts differ, so their vectors
differ); the judgment service is never consulted. -/
def svcC1 : Services :=
  { embedBatch := fun ts => .ok (ts.map (fun t => if t = "Clinic A | +233 1" then 2 else 1))
    embedOne := fun t => .ok (if t = "Clinic A | +233 1" then 2 else 1)
    sim := fun a b => if a = b then 1 else 0
    judge := fun _ _ _ => .error .other
    reliability := fun _ => .ok (none, none)
    setOrder := keepFirst [] }

/-- Input row for the C1 scenario: a keyed single-row group with a phone
number, so its identity text carries a contact component that the stored
record identity text lacks. -/
def c1Row : ScrapedRow :=
  { name := "Clinic A", source_url := "u", pk_unique_id := some 1,
    phone_numbers := ["+233 1"] }

/-- First run of the C1 scenario over an empty store. -/
def c1Run1 : Except (PyErr × PipelineState) (IngestMetrics × PipelineState) :=
  process_batch svcC1 [c1Row] none {}

/-- Second run of the C1 scenario over the state the first run left. -/
def c1Run2 : Option (IngestMetrics × PipelineState) :=
  match c1Run1 with
  | .ok (_, st) => (process_batch svcC1 [c1Row] none st).toOption
  | .error _ => none

/-- C1 evaluation at the failing input: the first run creates organization
0 and records the row in the ledger; the second run over the same input
never consults the ledger (get_processed_organization_id has no caller),
re-embeds, misses the stored record because the two identity texts differ,
takes the cheap new-organization path again, creates organization 1 and
repoints the ledger entry — so organization count and ledger contents
after two runs differ from one run, and the second run is not a no-op. -/
theorem c1_ledger_not_consulted_rerun_creates_duplicate :
    (c1Run1.toOption.map
      (fun p => (p.1, p.2.db.organizations.length, p.2.db.processed_rows))) =
      some ({ rows_processed := 1, new_organizations := 1,
              appended_to_existing := 0, rate_limit_hit := false }, 1, [(("u", ""), 0)]) ∧
    (c1Run2.map
      (fun p => (p.1, p.2.db.organizations.length, p.2.db.processed_rows))) =
      some ({ rows_processed := 1, new_organizations := 1,
              appended_to_existing := 0, rate_limit_hit := false }, 2, [(("u", ""), 1)]) := by
  constructor <;> decide

/-- One step of a SQLite session: a write inside the open transaction, or a
commit making the pending state visible. -/
inductive TxStep where
  | write (w : DbWrite)
  | commit
deriving DecidableEq

/-- Execute a step sequence with a failure injected before the step at the
given index (none injects no failure).  A write extends the pending
transaction; a commit publishes it; a failure raises with the last
committed state visible, as an aborted SQLite transaction leaves the
database at its last commit. -/
def execSteps : List TxStep → Option Nat → DB → DB → Except DB DB
  | [], _, visible, _ => .ok visible
  | s :: rest, failAt, visible, pending =>
    if failAt = some 0 then .error visible
    else
      let failAt1 := failAt.map (fun n => n - 1)
      match s with
      | .write w => execSteps rest failAt1 visible (applyWrite pending w)
      | .commit => execSteps rest failAt1 pending pending

/-- db.upsert_organization as a step sequence: all its writes, then the
single conn.commit() at its end. -/
def upsertScript (merged : MergedOrganization) (source_rows : List ScrapedRow)
    (existing : Option Nat) (freshId : Nat) : List TxStep :=
  (upsertWrites merged source_rows existing freshId).map TxStep.write ++ [TxStep.commit]

/-- db.record_processed as a step sequence: one ledger write, then its own
conn.commit(). -/
def recordScript (row : ScrapedRow) (org : Nat) : List TxStep :=
  [TxStep.write (.replaceProcessed row.source_url row.content_table_id org), TxStep.commit]

/-- The persistence work of one draft in pipeline lines 179-198: the
upsert_organization call, then one record_processed call per assigned row
(the in-memory embedding upsert between them touches no database). -/
structure DraftPersist where
  merged : MergedOrganization := {}
  assigned : List ScrapedRow := []
  existing : Option Nat := none
  freshId : Nat := 0

/-- Step sequence of one draft. -/
def draftScript (d : DraftPersist) : List TxStep :=
  upsertScript d.merged d.assigned d.existing d.freshId ++
    d.assigned.flatMap (fun row => recordScript row (d.existing.getD d.freshId))

/-- Step sequence of one whole group: its drafts in order. -/
def groupPersistScript (drafts : List DraftPersist) : List TxStep :=
  drafts.flatMap draftScript

/-- Draft used by the C2 counterexample: one new organization from one row. -/
def c2Draft : DraftPersist :=
  { merged := { canonical_name := "A" }
    assigned := [{ name := "A", source_url := "u" }] }

/-- C2 counterexample: the group writes span several commits, so they are
not one atomic unit.  The script of this one-draft group has 8 steps; a
failure at step 6 — the ledger write, after upsert_organization already
committed at step 5 — leaves the organization and its provenance visible
with no ledger entry: a partial group. -/
theorem c2_group_commit_not_atomic :
    (groupPersistScript [c2Draft]).length = 8 ∧
    (match execSteps (groupPersistScript [c2Draft]) (some 6) {} {} with
      | .error d => some (d.organizations.length, d.organization_sources.length,
          d.processed_rows)
      | .ok _ => none) = some (1, 1, []) := by
  constructor <;> decide

/-- Failing anywhere inside an uncommitted prefix of writes leaves the
visible database unchanged, whatever was pending. -/
theorem execSteps_fail_during_writes (ws : List DbWrite) (tail : List TxStep)
    (db : DB) : ∀ (pending : DB) (j : Nat), j < ws.length →
    execSteps (ws.map TxStep.write ++ tail) (some j) db pending = .error db := by
  induction ws with
  | nil => intro pending j h; simp at h
  | cons w ws ih =>
    intro pending j h
    cases j with
    | zero => simp [execSteps]
    | succ j1 =>
      have hne : ¬ ((some (j1 + 1) : Option Nat) = some 0) := by simp
      simp only [List.map_cons, List.cons_append, execSteps, hne, if_neg]
      exact ih (applyWrite pending w) j1 (by simpa using h)

/-- C2 amended: each single upsert_organization call is atomic — a failure
at any of its writes, before its commit, leaves the visible database
exactly as it was, with no partial organization, child rows or provenance;
but ledger entries and later drafts commit in separate transactions after
it, so they are not covered by that unit (the counterexample). -/
theorem c2_upsert_atomic_before_first_commit (merged : MergedOrganization)
    (source_rows : List ScrapedRow) (existing : Option Nat) (freshId : Nat)
    (rest : List TxStep) (db : DB) (j : Nat)
    (h : j < (upsertWrites merged source_rows existing freshId).length) :
    execSteps (upsertScript merged source_rows existing freshId ++ rest)
      (some j) db db = .error db := by
  unfold upsertScript
  rw [List.append_assoc]
  exact execSteps_fail_during_writes _ _ db db j h

/-- Witness for the C2 theorem: failure at the very first write of an
upsert leaves the empty database unchanged. -/
theorem c2_upsert_atomic_before_first_commit_witness :
    execSteps (upsertScript { canonical_name := "A" } [] none 0 ++ []) (some 0) {} {} =
      .error ({} : DB) := by
  exact c2_upsert_atomic_before_first_commit { canonical_name := "A" } [] none 0 [] {} 0
    (by decide)
